/-
Verification of the ds-wgan training pipeline (src/wgan/wgan.py) against its
specification.  Each section embeds the relevant source code shallowly in
Lean 4 (machine floats become exact rationals or reals; the stochastic
multinomial draw becomes its support predicate) and proves or refutes the
spec's claims about it.
-/
import Mathlib

/-! ### Training-loop step alternation (wgan.py, `train`, lines 676-707)

The loop initializes `step = 1` and increments it by one after every
mini-batch.  Each batch computes `generator_update = step % critic_steps == 0`
and performs a generator update when it is true, a critic update otherwise. -/

/-- Kind of update performed for one mini-batch of the training loop. -/
inductive StepKind where
  | critic
  | generator
deriving DecidableEq, Repr

/-- `generator_update = step % s["critic_steps"] == 0` (wgan.py line 681). -/
def generator_update (critic_steps step : ℕ) : Bool :=
  step % critic_steps == 0

/-- The branch taken by the loop body for a given step counter value
(wgan.py lines 686-706). -/
def stepKind (critic_steps step : ℕ) : StepKind :=
  if generator_update critic_steps step then .generator else .critic

/-- The sequence of update kinds over the first `n` mini-batches: the step
counter starts at 1 and increments by exactly 1 per batch (lines 658, 707). -/
def trainStepKinds (critic_steps n : ℕ) : List StepKind :=
  (List.range n).map (fun i => stepKind critic_steps (i + 1))

lemma trainStepKinds_succ (c n : ℕ) :
    trainStepKinds c (n + 1) = trainStepKinds c n ++ [stepKind c (n + 1)] := by
  simp [trainStepKinds, List.range_succ]

lemma count_generator_succ (c n : ℕ) :
    (trainStepKinds c (n + 1)).count StepKind.generator =
      (trainStepKinds c n).count StepKind.generator +
        (if c ∣ (n + 1) then 1 else 0) := by
  rw [trainStepKinds_succ, List.count_append]
  congr 1
  by_cases h : (n + 1) % c = 0
  · simp [stepKind, generator_update, h, Nat.dvd_of_mod_eq_zero h]
  · have h' : ¬ c ∣ (n + 1) := fun hd => h (Nat.mod_eq_zero_of_dvd hd)
    simp [stepKind, generator_update, h, h']

/-- Claim C1: in the training loop the global step counter starts at 1 and
increments by 1 per mini-batch; a step is a generator step exactly when
`step % critic_steps == 0`, and across the first `n` steps exactly
`n / critic_steps` (floor division) are generator steps, the rest critic
steps. -/
theorem claim_C1_step_alternation (c n : ℕ) (hc : 0 < c) :
    (∀ step : ℕ, stepKind c step = StepKind.generator ↔ step % c = 0) ∧
    (∀ step : ℕ, stepKind c step = StepKind.critic ↔ step % c ≠ 0) ∧
    (trainStepKinds c n).count StepKind.generator = n / c := by
  refine ⟨?_, ?_, ?_⟩
  · intro step
    by_cases h : step % c = 0 <;> simp [stepKind, generator_update, h]
  · intro step
    by_cases h : step % c = 0 <;> simp [stepKind, generator_update, h]
  · induction n with
    | zero => simp [trainStepKinds]
    | succ n ih =>
        rw [count_generator_succ, ih, Nat.succ_div]

/-- Witness for C1 at the spec's scenario `critic_steps = 5`, 10 steps:
steps 5 and 10 are generator steps (2 = 10 / 5 of them), step 1 is a critic
step. -/
theorem claim_C1_step_alternation_witness :
    stepKind 5 5 = StepKind.generator ∧
    stepKind 5 10 = StepKind.generator ∧
    stepKind 5 1 = StepKind.critic ∧
    (trainStepKinds 5 10).count StepKind.generator = 10 / 5 :=
  ⟨((claim_C1_step_alternation 5 10 (by decide)).1 5).mpr (by decide),
   ((claim_C1_step_alternation 5 10 (by decide)).1 10).mpr (by decide),
   ((claim_C1_step_alternation 5 10 (by decide)).2.1 1).mpr (by decide),
   (claim_C1_step_alternation 5 10 (by decide)).2.2⟩

/-! ### Generator output transform, continuous slice (wgan.py, `Generator._transform`, lines 534-542)

`_transform` splits the final linear layer's output into a continuous slice of
width `d_cont` and a categorical slice of width `d_cat`.  The continuous slice
is clipped to the bounds tensor: elementwise `max` with the lower-bound row
`bounds[0:1]`, then elementwise `min` with the upper-bound row `bounds[1:2]`.
We embed one row; tensor broadcasting makes every batch row identical. -/

/-- The continuous clamp of `Generator._transform` (lines 536-539), per
coordinate: `min (max x lowerBound) upperBound`. -/
def clampContinuous (lower upper xs : List ℚ) : List ℚ :=
  List.zipWith (fun x lu => min (max x lu.1) lu.2) xs (lower.zip upper)

/-- Claim C2: after `_transform`, every continuous output coordinate lies
within its configured `[lower, upper]` bound, for any pre-transform value,
provided the bound pair satisfies `lower ≤ upper` at that coordinate. -/
theorem claim_C2_bounds_invariant (lower upper xs : List ℚ) (i : ℕ)
    (h1 : i < lower.length) (h2 : i < upper.length)
    (hle : lower[i] ≤ upper[i])
    (h : i < (clampContinuous lower upper xs).length) :
    lower[i] ≤ (clampContinuous lower upper xs)[i] ∧
    (clampContinuous lower upper xs)[i] ≤ upper[i] := by
  have hz : i < (lower.zip upper).length := by
    simp only [clampContinuous, List.length_zipWith] at h
    exact lt_of_lt_of_le h (min_le_right _ _)
  simp only [clampContinuous] at h ⊢
  rw [List.getElem_zipWith]
  rw [List.getElem_zip]
  exact ⟨le_min (le_max_right _ _) hle, min_le_right _ _⟩

/-- Witness for C2: bounds `[0, 1]` at coordinate 0, pre-transform value 5 is
clamped into the interval. -/
theorem claim_C2_bounds_invariant_witness :
    (0:ℚ) ≤ (clampContinuous [0] [1] [5]).get ⟨0, by decide⟩ ∧
    (clampContinuous [0] [1] [5]).get ⟨0, by decide⟩ ≤ (1:ℚ) := by
  exact claim_C2_bounds_invariant [0] [1] [5] 0 (by decide) (by decide)
    (by decide) (by decide)

/-! ### Generator output transform, categorical slice (wgan.py, `Generator._transform`, lines 540-541)

The categorical slice is split into consecutive blocks of widths `cat_dims`
(`categorical.split(self.cat_dims, -1)`) and each block is independently
softmax-normalized (`F.softmax(x, -1)`), then the blocks are re-concatenated. -/

/-- `F.softmax(x, -1)` on one block: each entry becomes
`exp xᵢ / Σⱼ exp xⱼ`. -/
noncomputable def softmax (l : List ℝ) : List ℝ :=
  l.map (fun x => Real.exp x / (l.map Real.exp).sum)

/-- `tensor.split(sizes, -1)`: consecutive chunks of the given widths. -/
def splitBlocks : List ℕ → List ℝ → List (List ℝ)
  | [], _ => []
  | d :: ds, xs => xs.take d :: splitBlocks ds (xs.drop d)

/-- The categorical blocks of the transformed output: each block of width
`cat_dims[i]` independently softmax-normalized (line 541). -/
noncomputable def catBlocks (cat_dims : List ℕ) (xs : List ℝ) : List (List ℝ) :=
  (splitBlocks cat_dims xs).map softmax

/-- The full categorical slice after `_transform`: the normalized blocks
re-concatenated (`torch.cat(..., -1)`, line 541). -/
noncomputable def transformCategorical (cat_dims : List ℕ) (xs : List ℝ) : List ℝ :=
  (catBlocks cat_dims xs).flatten

lemma sum_map_exp_nonneg (l : List ℝ) : 0 ≤ (l.map Real.exp).sum := by
  apply List.sum_nonneg
  intro y hy
  obtain ⟨x, -, rfl⟩ := List.mem_map.mp hy
  exact (Real.exp_pos x).le

lemma sum_map_exp_pos (l : List ℝ) (h : l ≠ []) : 0 < (l.map Real.exp).sum := by
  obtain ⟨a, t, rfl⟩ := List.exists_cons_of_ne_nil h
  simp only [List.map_cons, List.sum_cons]
  exact add_pos_of_pos_of_nonneg (Real.exp_pos a) (sum_map_exp_nonneg t)

lemma softmax_eq_nil_iff (l : List ℝ) : softmax l = [] ↔ l = [] := by
  simp [softmax]

/-- Claim C3: each categorical block of the transformed generator output is
elementwise non-negative and sums to exactly 1, for any pre-softmax input
vector and any block widths, provided the block is non-empty. -/
theorem claim_C3_probability_invariant (cat_dims : List ℕ) (xs : List ℝ)
    (b : List ℝ) (hb : b ∈ catBlocks cat_dims xs) (hne : b ≠ []) :
    (∀ y ∈ b, 0 ≤ y) ∧ b.sum = 1 := by
  obtain ⟨a, -, rfl⟩ := List.mem_map.mp hb
  have ha : a ≠ [] := fun h => hne (by simp [h, softmax])
  have hS : 0 < (a.map Real.exp).sum := sum_map_exp_pos a ha
  constructor
  · intro y hy
    obtain ⟨x, -, rfl⟩ := List.mem_map.mp hy
    exact div_nonneg (Real.exp_pos x).le hS.le
  · have : softmax a = a.map (fun x => Real.exp x * ((a.map Real.exp).sum)⁻¹) := by
      simp [softmax, div_eq_mul_inv]
    rw [this, List.sum_map_mul_right]
    exact mul_inv_cancel₀ hS.ne'

/-- Witness for C3: a single block of width 2 with pre-softmax input
`[0, 0]` is non-negative and sums to 1. -/
theorem claim_C3_probability_invariant_witness :
    softmax [(0:ℝ), 0] ∈ catBlocks [2] [(0:ℝ), 0] ∧
    softmax [(0:ℝ), 0] ≠ [] ∧
    ((∀ y ∈ softmax [(0:ℝ), 0], 0 ≤ y) ∧ (softmax [(0:ℝ), 0]).sum = 1) := by
  have hb : softmax [(0:ℝ), 0] ∈ catBlocks [2] [(0:ℝ), 0] := by
    simp [catBlocks, splitBlocks]
  have hne : softmax [(0:ℝ), 0] ≠ [] := by
    simp [softmax]
  exact ⟨hb, hne, claim_C3_probability_invariant [2] [(0:ℝ), 0] _ hb hne⟩

/-! ### Critic gradient penalty (wgan.py, `Critic.gradient_penalty`, lines 609-634)

`alpha = torch.rand(batch)` draws per-example uniform weights in `[0,1]`;
`interpolated = x * alpha + x_hat * (1 - alpha)` forms the convex
combination (context is passed through unchanged); the penalty is
`F.relu(gradients.norm(2, dim=1) - 1).mean()` over the per-example gradients
of the critic score with respect to the interpolated input. -/

/-- `F.relu`. -/
noncomputable def relu (x : ℝ) : ℝ := max x 0

/-- `gradients.norm(2, dim=1)` for one example: the Euclidean norm of its
gradient vector. -/
noncomputable def gradientNorm (g : List ℝ) : ℝ :=
  Real.sqrt ((g.map (fun x => x ^ 2)).sum)

/-- `F.relu(gradients.norm(2, dim=1) - 1).mean()` (line 632): the one-sided
penalty averaged over the batch of per-example gradient vectors. -/
noncomputable def gradient_penalty (grads : List (List ℝ)) : ℝ :=
  (grads.map (fun g => relu (gradientNorm g - 1))).sum / (grads.length : ℝ)

/-- `interpolated = x * alpha + x_hat * (1 - alpha)` (line 627), one
coordinate of one example. -/
def interpolate (alpha x x_hat : ℝ) : ℝ := x * alpha + x_hat * (1 - alpha)

/-- Claim C4: the one-sided gradient penalty is always ≥ 0 and equals 0
whenever every per-example gradient norm is ≤ 1; and for a per-example
weight in `[0,1]` the interpolated input is a convex combination lying
between the real and generated values. -/
theorem claim_C4_gradient_penalty_nonneg (grads : List (List ℝ)) :
    0 ≤ gradient_penalty grads ∧
    ((∀ g ∈ grads, gradientNorm g ≤ 1) → gradient_penalty grads = 0) ∧
    (∀ alpha x x_hat : ℝ, 0 ≤ alpha → alpha ≤ 1 →
      min x x_hat ≤ interpolate alpha x x_hat ∧
      interpolate alpha x x_hat ≤ max x x_hat) := by
  refine ⟨?_, ?_, ?_⟩
  · apply div_nonneg
    · apply List.sum_nonneg
      intro y hy
      obtain ⟨g, -, rfl⟩ := List.mem_map.mp hy
      exact le_max_right _ _
    · exact Nat.cast_nonneg _
  · intro hall
    have : (grads.map (fun g => relu (gradientNorm g - 1))).sum = 0 := by
      apply List.sum_eq_zero
      intro y hy
      obtain ⟨g, hg, rfl⟩ := List.mem_map.mp hy
      have : gradientNorm g - 1 ≤ 0 := by linarith [hall g hg]
      exact max_eq_right this
    rw [gradient_penalty, this, zero_div]
  · intro alpha x x_hat h0 h1
    constructor
    · calc min x x_hat = min x x_hat * alpha + min x x_hat * (1 - alpha) := by
            ring
        _ ≤ x * alpha + x_hat * (1 - alpha) :=
            add_le_add (mul_le_mul_of_nonneg_right (min_le_left _ _) h0)
              (mul_le_mul_of_nonneg_right (min_le_right _ _) (by linarith))
        _ = interpolate alpha x x_hat := rfl
    · calc interpolate alpha x x_hat = x * alpha + x_hat * (1 - alpha) := rfl
        _ ≤ max x x_hat * alpha + max x x_hat * (1 - alpha) :=
            add_le_add (mul_le_mul_of_nonneg_right (le_max_left _ _) h0)
              (mul_le_mul_of_nonneg_right (le_max_right _ _) (by linarith))
        _ = max x x_hat := by ring

/-- Witness for C4: a batch of one example with zero gradient has penalty 0,
and interpolating 0 and 2 with weight 1/2 stays between them. -/
theorem claim_C4_gradient_penalty_nonneg_witness :
    0 ≤ gradient_penalty [[(0:ℝ)]] ∧
    gradient_penalty [[(0:ℝ)]] = 0 ∧
    (min (0:ℝ) 2 ≤ interpolate (1/2) 0 2 ∧ interpolate (1/2) 0 2 ≤ max (0:ℝ) 2) := by
  have hall : ∀ g ∈ [[(0:ℝ)]], gradientNorm g ≤ 1 := by
    intro g hg
    simp only [List.mem_singleton] at hg
    subst hg
    have : gradientNorm [(0:ℝ)] = 0 := by
      simp [gradientNorm]
    rw [this]
    norm_num
  exact ⟨(claim_C4_gradient_penalty_nonneg [[(0:ℝ)]]).1,
    (claim_C4_gradient_penalty_nonneg [[(0:ℝ)]]).2.1 hall,
    (claim_C4_gradient_penalty_nonneg [[(0:ℝ)]]).2.2 (1/2) 0 2 (by norm_num)
      (by norm_num)⟩

/-! ### DataWrapper round trip (wgan.py, `preprocess` lines 148-182, `deprocess` lines 184-248)

`preprocess` z-scores the continuous and context columns with the frozen
statistics (`(x - m) / s`, line 165) and one-hot-encodes each categorical
column with the vocabulary built at fit time (`pd.get_dummies`, line 173;
label → code via `words_to_int`, i.e. the label's index in the vocabulary).
`deprocess` inverts the scaling (`x * s + m`, line 200), draws one code per
categorical block with `torch.multinomial(p, 1)` (line 216) — a draw is only
possible at an index with positive probability — and maps the code back
through `int_to_words` (line 246), i.e. looks the index up in the same
vocabulary. -/

/-- Coordinatewise `(x - m) / s` with the frozen means and stds
(preprocess, line 165). -/
def preprocessCont : List ℚ → List ℚ → List ℚ → List ℚ
  | m :: ms, s :: ss, x :: xs => (x - m) / s :: preprocessCont ms ss xs
  | _, _, _ => []

/-- Coordinatewise `x * s + m` with the same frozen means and stds
(deprocess, line 200). -/
def deprocessCont : List ℚ → List ℚ → List ℚ → List ℚ
  | m :: ms, s :: ss, x :: xs => (x * s + m) :: deprocessCont ms ss xs
  | _, _, _ => []

/-- One-hot row produced by `pd.get_dummies` for code `c` out of `n`
categories (preprocess, line 173). -/
def oneHot (n c : ℕ) : List ℚ :=
  (List.range n).map (fun i => if i = c then 1 else 0)

/-- Encoding of an in-vocabulary categorical label: its one-hot row, the hot
position being the label's index in the fit-time vocabulary
(`words_to_int`). -/
def encodeCat (vocab : List String) (label : String) : List ℚ :=
  oneHot vocab.length (vocab.indexOf label)

/-- Decoding of a drawn categorical code: vocabulary lookup
(`int_to_words`, deprocess line 246). -/
def decodeCat (vocab : List String) (i : ℕ) : Option String :=
  vocab[i]?

/-- The support of `torch.multinomial(p, 1)` (deprocess, line 216): an index
can be drawn iff its probability mass is positive. -/
abbrev possibleDraw (p : List ℚ) (i : ℕ) : Prop :=
  i < p.length ∧ 0 < p.getD i 0

lemma deprocess_preprocess_cont (ms ss xs : List ℚ)
    (hm : ms.length = xs.length) (hs : ss.length = xs.length)
    (hnz : ∀ s ∈ ss, s ≠ 0) :
    deprocessCont ms ss (preprocessCont ms ss xs) = xs := by
  induction xs generalizing ms ss with
  | nil => cases ms <;> cases ss <;> simp [preprocessCont, deprocessCont]
  | cons x xs ih =>
      cases ms with
      | nil => simp at hm
      | cons m ms =>
          cases ss with
          | nil => simp at hs
          | cons s ss =>
              simp only [List.length_cons, Nat.succ.injEq] at hm hs
              have hs0 : s ≠ 0 := hnz s (List.mem_cons_self s ss)
              simp only [preprocessCont, deprocessCont]
              rw [div_mul_cancel₀ _ hs0, sub_add_cancel,
                ih ms ss hm hs (fun t ht => hnz t (List.mem_cons_of_mem s ht))]

/-- Claim C5: with the same frozen statistics, `deprocess` inverts
`preprocess` exactly on the continuous (and context) columns, and for an
in-vocabulary categorical label the one-hot block is a point mass, so the
single multinomial draw can only return the original code, which decodes to
the original label. -/
theorem claim_C5_roundtrip (means stds xs : List ℚ) (vocab : List String)
    (label : String)
    (hm : means.length = xs.length) (hs : stds.length = xs.length)
    (hnz : ∀ s ∈ stds, s ≠ 0) (hlabel : label ∈ vocab) :
    deprocessCont means stds (preprocessCont means stds xs) = xs ∧
    (∀ i : ℕ, possibleDraw (encodeCat vocab label) i →
      decodeCat vocab i = some label) := by
  refine ⟨deprocess_preprocess_cont means stds xs hm hs hnz, ?_⟩
  rintro i ⟨hi, hpos⟩
  have hlen : (encodeCat vocab label).length = vocab.length := by
    simp [encodeCat, oneHot]
  rw [hlen] at hi
  have hval : (encodeCat vocab label).getD i 0 =
      if i = vocab.indexOf label then 1 else 0 := by
    rw [List.getD_eq_getElem _ _ (by rwa [hlen])]
    simp [encodeCat, oneHot]
  rw [hval] at hpos
  by_cases hic : i = vocab.indexOf label
  · subst hic
    simpa [decodeCat] using List.getElem?_indexOf hlabel
  · simp [hic] at hpos

/-- Witness for C5: means `[3]`, stds `[2]`, row value `[7]`, vocabulary
`["blue", "red"]`, label `"red"`: the continuous round trip returns `[7]`,
and every possible draw from the label's one-hot block decodes to `"red"`. -/
theorem claim_C5_roundtrip_witness :
    deprocessCont [3] [2] (preprocessCont [3] [2] [7]) = [7] ∧
    (∀ i : ℕ, possibleDraw (encodeCat ["blue", "red"] "red") i →
      decodeCat ["blue", "red"] i = some "red") := by
  exact claim_C5_roundtrip [3] [2] [7] ["blue", "red"] "red" (by decide)
    (by decide) (by decide) (by decide)

/-! ### Optimistic Adam step (wgan.py, `OAdam.step`, lines 342-393)

Per parameter (dense gradient, scalar case — tensors act elementwise), with
`t = state['step'] + 1`:
`grad += weight_decay * p` (line 376, when nonzero — adding 0 otherwise is
the identity); `step_size = lr * sqrt(1 - beta2^t) / (1 - beta1^t)`
(lines 377-379); **`p.data.addcdiv_(step_size, exp_avg, sqrt(exp_avg_sq)+eps)`
adds** `step_size * m / (sqrt v + eps)` with the pre-update moments
(line 381); the moments are then updated (`m = beta1*m + (1-beta1)*grad`,
`v = beta2*v + (1-beta2)*grad*grad`, lines 383-384); finally
`p.data.addcdiv_(-2.0 * step_size, exp_avg, denom)` subtracts
`2 * step_size * m / (sqrt v + eps)` with the updated moments (line 392). -/

/-- Per-parameter optimizer state (`state['step']`, `state['exp_avg']`,
`state['exp_avg_sq']`, `state['max_exp_avg_sq']`). -/
structure OAdamState where
  step : ℕ
  exp_avg : ℝ
  exp_avg_sq : ℝ
  max_exp_avg_sq : ℝ

/-- One `OAdam.step` update of a single (scalar) parameter with a dense
gradient, returning the new parameter value and optimizer state
(lines 373-392). -/
noncomputable def oadamStep (lr beta1 beta2 eps weight_decay : ℝ)
    (amsgrad : Bool) (p grad : ℝ) (s : OAdamState) : ℝ × OAdamState :=
  let t := s.step + 1
  let g := grad + weight_decay * p
  let bias_correction1 := 1 - beta1 ^ t
  let bias_correction2 := 1 - beta2 ^ t
  let step_size := lr * Real.sqrt bias_correction2 / bias_correction1
  let p1 := p + step_size * (s.exp_avg / (Real.sqrt s.exp_avg_sq + eps))
  let m := beta1 * s.exp_avg + (1 - beta1) * g
  let v := beta2 * s.exp_avg_sq + (1 - beta2) * (g * g)
  let maxv := if amsgrad then max s.max_exp_avg_sq v else s.max_exp_avg_sq
  let denom := (if amsgrad then Real.sqrt maxv else Real.sqrt v) + eps
  let p2 := p1 + (-2 * step_size) * (m / denom)
  (p2, ⟨t, m, v, maxv⟩)

/-- Modelled from the claim's words, for comparison with `oadamStep`: an
update that *subtracts* `step_size * m / (sqrt v + eps)` with the pre-update
moments, then subtracts an additional `2 * step_size * m / (sqrt v + eps)`
with the updated moments. -/
noncomputable def oadamStepClaimed (lr beta1 beta2 eps : ℝ)
    (p grad : ℝ) (s : OAdamState) : ℝ × OAdamState :=
  let t := s.step + 1
  let step_size := lr * Real.sqrt (1 - beta2 ^ t) / (1 - beta1 ^ t)
  let p1 := p - step_size * (s.exp_avg / (Real.sqrt s.exp_avg_sq + eps))
  let m := beta1 * s.exp_avg + (1 - beta1) * grad
  let v := beta2 * s.exp_avg_sq + (1 - beta2) * (grad * grad)
  let p2 := p1 - 2 * step_size * (m / (Real.sqrt v + eps))
  (p2, ⟨t, m, v, s.max_exp_avg_sq⟩)

/-- Counterexample for C6: at `lr = 1`, `beta1 = beta2 = 0`, `eps = 1`, no
weight decay, parameter 0, gradient 0 and moment state `m = v = 1` after one
previous step, the code's update yields `1/2` (the first `addcdiv_` *adds*
`step_size * m / (sqrt v + eps)`), while the claimed subtract-first update
yields `-1/2`. -/
theorem claim_C6_counterexample :
    (oadamStep 1 0 0 1 0 false 0 0 ⟨1, 1, 1, 0⟩).1 = 1 / 2 ∧
    (oadamStepClaimed 1 0 0 1 0 0 ⟨1, 1, 1, 0⟩).1 = -(1 / 2) ∧
    (oadamStep 1 0 0 1 0 false 0 0 ⟨1, 1, 1, 0⟩).1 ≠
      (oadamStepClaimed 1 0 0 1 0 0 ⟨1, 1, 1, 0⟩).1 := by
  have h1 : (oadamStep 1 0 0 1 0 false 0 0 ⟨1, 1, 1, 0⟩).1 = 1 / 2 := by
    simp only [oadamStep]
    norm_num [Real.sqrt_one, Real.sqrt_zero]
  have h2 : (oadamStepClaimed 1 0 0 1 0 0 ⟨1, 1, 1, 0⟩).1 = -(1 / 2) := by
    simp only [oadamStepClaimed]
    norm_num [Real.sqrt_one, Real.sqrt_zero]
  exact ⟨h1, h2, by rw [h1, h2]; norm_num⟩

/-- Claim C6 (amended): for a dense gradient (default configuration, no
amsgrad), one `OAdam.step` call, in order, **adds**
`step_size * m / (sqrt v + eps)` computed with the pre-update moments,
then updates the moment running averages, then subtracts
`2 * step_size * m / (sqrt v + eps)` computed with the updated moments,
where `step_size = lr * sqrt(1 - beta2^t) / (1 - beta1^t)` and
`t` is the incremented step count. -/
theorem claim_C6_amended_optimistic_update (lr beta1 beta2 eps wd p grad : ℝ)
    (s : OAdamState) :
    oadamStep lr beta1 beta2 eps wd false p grad s =
      (p + (lr * Real.sqrt (1 - beta2 ^ (s.step + 1)) / (1 - beta1 ^ (s.step + 1)))
            * s.exp_avg / (Real.sqrt s.exp_avg_sq + eps)
         - 2 * (lr * Real.sqrt (1 - beta2 ^ (s.step + 1)) / (1 - beta1 ^ (s.step + 1)))
            * (beta1 * s.exp_avg + (1 - beta1) * (grad + wd * p))
            / (Real.sqrt (beta2 * s.exp_avg_sq + (1 - beta2) * (grad + wd * p) ^ 2) + eps),
       ⟨s.step + 1,
        beta1 * s.exp_avg + (1 - beta1) * (grad + wd * p),
        beta2 * s.exp_avg_sq + (1 - beta2) * (grad + wd * p) ^ 2,
        s.max_exp_avg_sq⟩) := by
  simp only [oadamStep, Bool.false_eq_true, if_false]
  rw [Prod.ext_iff]
  constructor
  · dsimp only
    ring_nf
  · dsimp only
    rw [OAdamState.mk.injEq]
    exact ⟨rfl, rfl, by ring, rfl⟩

/-! ### OAdam constructor validation and sparse-gradient rejection (wgan.py, `OAdam.__init__` lines 323-335, `OAdam.step` lines 353-357)

The constructor raises `ValueError` when `not 0.0 <= lr`, `not 0.0 <= eps`,
`not 0.0 <= betas[0] < 1.0`, or `not 0.0 <= betas[1] < 1.0`, in that order;
otherwise it succeeds.  `step` raises `RuntimeError` when a parameter's
gradient is sparse. -/

/-- Whether `OAdam.__init__` raises a `ValueError` for the given
hyperparameters (lines 325-332): it raises exactly when one of the guarded
conditions `0.0 <= lr`, `0.0 <= eps`, `0.0 <= betas[i] < 1.0` fails. -/
def oadamInitRaises (lr eps beta1 beta2 : ℚ) : Bool :=
  if 0 ≤ lr then
    if 0 ≤ eps then
      if 0 ≤ beta1 ∧ beta1 < 1 then
        if 0 ≤ beta2 ∧ beta2 < 1 then false else true
      else true
    else true
  else true

/-- Modelled from the claim's words, for comparison with `oadamInitRaises`:
the claim's raise condition, with a *non-positive* learning rate. -/
def oadamInitRaisesClaimed (lr eps beta1 beta2 : ℚ) : Prop :=
  lr ≤ 0 ∨ eps < 0 ∨ ¬ (0 ≤ beta1 ∧ beta1 < 1) ∨ ¬ (0 ≤ beta2 ∧ beta2 < 1)

instance (lr eps beta1 beta2 : ℚ) :
    Decidable (oadamInitRaisesClaimed lr eps beta1 beta2) := by
  unfold oadamInitRaisesClaimed
  infer_instance

/-- A parameter's gradient tensor as seen by `OAdam.step`: dense or sparse. -/
inductive Grad where
  | dense (g : ℚ)
  | sparse
deriving DecidableEq

/-- The sparse-gradient guard of `OAdam.step` (lines 356-357). -/
def oadamStepGradCheck : Grad → Except String Unit
  | .sparse => .error "Adam does not support sparse gradients, please consider SparseAdam instead"
  | .dense _ => .ok ()

/-- Counterexample for C7: at learning rate exactly 0 (other hyperparameters
valid), the claim's condition ("non-positive learning rate") says the
constructor raises, but the code's check `not 0.0 <= lr` passes, so
construction succeeds. -/
theorem claim_C7_counterexample :
    oadamInitRaisesClaimed 0 1 0 0 ∧
    oadamInitRaises 0 1 0 0 = false ∧
    ¬ (oadamInitRaises 0 1 0 0 = true ↔ oadamInitRaisesClaimed 0 1 0 0) := by
  decide

/-- Claim C7 (amended): `OAdam.__init__` raises if and only if the learning
rate is *negative*, the epsilon is negative, or a decay coefficient lies
outside `[0, 1)`; and `OAdam.step` rejects a sparse gradient. -/
theorem claim_C7_amended_validation (lr eps beta1 beta2 : ℚ) :
    (oadamInitRaises lr eps beta1 beta2 = true ↔
      (lr < 0 ∨ eps < 0 ∨ ¬ (0 ≤ beta1 ∧ beta1 < 1) ∨ ¬ (0 ≤ beta2 ∧ beta2 < 1))) ∧
    (∀ gr : Grad, (oadamStepGradCheck gr).isOk = false ↔ gr = Grad.sparse) := by
  constructor
  · unfold oadamInitRaises
    split_ifs with h1 h2 h3 h4
    · simp only [Bool.false_eq_true, false_iff]
      push_neg
      exact ⟨h1, h2, h3, h4⟩
    · simp only [true_iff]
      exact Or.inr (Or.inr (Or.inr h4))
    · simp only [true_iff]
      exact Or.inr (Or.inr (Or.inl h3))
    · simp only [true_iff]
      exact Or.inr (Or.inl (not_le.mp h2))
    · simp only [true_iff]
      exact Or.inl (not_le.mp h1)
  · intro gr
    cases gr <;> simp [oadamStepGradCheck, Except.isOk, Except.toBool]

/-- Witness for C7 (amended): a negative learning rate raises, and the step
guard rejects a sparse gradient. -/
theorem claim_C7_amended_validation_witness :
    oadamInitRaises (-1) 1 (1/2) (999/1000) = true ∧
    (oadamStepGradCheck Grad.sparse).isOk = false :=
  ⟨(claim_C7_amended_validation (-1) 1 (1/2) (999/1000)).1.mpr
      (Or.inl (by norm_num)),
   ((claim_C7_amended_validation (-1) 1 (1/2) (999/1000)).2 Grad.sparse).mpr rfl⟩

/-! ### Specifications construction (wgan.py, `Specifications.__init__`, lines 456-490)

The constructor stores the keyword arguments into `self.settings` (line 478),
derives `d_context`, `d_cont` and `d_x = d_cont + sum(cat_dims)` from the
data wrapper (lines 480-483), replaces the sentinel default of
`generator_d_noise` by `d_x` (lines 484-485), and builds `self.data`
(lines 486-488).  It contains no range check of any numeric hyperparameter
and no raise statement; the string sentinel `"generator_d_output"` is
modelled as `Option.none`. -/

/-- The numeric hyperparameters stored into `Specifications.settings`
together with the resolved `generator_d_noise`. -/
structure SpecSettings where
  critic_dropout : ℚ
  critic_steps : ℤ
  critic_lr : ℚ
  critic_gp_factor : ℚ
  generator_dropout : ℚ
  generator_lr : ℚ
  generator_d_noise : ℕ
  max_epochs : ℤ
  batch_size : ℤ
  test_set_size : ℤ
deriving DecidableEq, Repr

/-- The derived dimension record `Specifications.data` (lines 486-488;
`cont_bounds` is carried by the wrapper and not re-derived here). -/
structure SpecData where
  d_context : ℕ
  d_x : ℕ
  cat_dims : List ℕ
deriving DecidableEq, Repr

/-- The configuration error the claim expects at construction. -/
inductive ConfigurationError where
  | invalidValue
deriving DecidableEq, Repr

/-- `Specifications.__init__` (lines 456-490): stores the settings, derives
the dimensions, and defaults `generator_d_noise` to `d_x`; the source has no
validation branch, so no input reaches an error. -/
def specificationsInit (d_context d_cont : ℕ) (cat_dims : List ℕ)
    (critic_dropout : ℚ) (critic_steps : ℤ)
    (critic_lr critic_gp_factor generator_dropout generator_lr : ℚ)
    (generator_d_noise : Option ℕ)
    (max_epochs batch_size test_set_size : ℤ) :
    Except ConfigurationError (SpecSettings × SpecData) :=
  let d_x := d_cont + cat_dims.sum
  .ok ({ critic_dropout := critic_dropout
         critic_steps := critic_steps
         critic_lr := critic_lr
         critic_gp_factor := critic_gp_factor
         generator_dropout := generator_dropout
         generator_lr := generator_lr
         generator_d_noise := generator_d_noise.getD d_x
         max_epochs := max_epochs
         batch_size := batch_size
         test_set_size := test_set_size },
       { d_context := d_context
         d_x := d_x
         cat_dims := cat_dims })

/-- Counterexample for C8: constructing with a negative learning rate,
negative dropout rate and batch size 0 succeeds (returns the settings
record) instead of raising a construction-time error. -/
theorem claim_C8_counterexample :
    specificationsInit 1 1 [2] 0 15 (-1) 5 (-1/2) (-1) none 1000 0 16 =
      .ok ({ critic_dropout := 0
             critic_steps := 15
             critic_lr := -1
             critic_gp_factor := 5
             generator_dropout := -1/2
             generator_lr := -1
             generator_d_noise := 3
             max_epochs := 1000
             batch_size := 0
             test_set_size := 16 },
           { d_context := 1
             d_x := 3
             cat_dims := [2] }) := by
  rfl

/-- Claim C8 (amended): `Specifications` performs no numeric-range
validation: construction succeeds for every configuration, storing the given
hyperparameters unchanged, with `generator_d_noise` defaulted to
`d_x = d_cont + sum(cat_dims)` when left unspecified. -/
theorem claim_C8_amended_no_validation (d_context d_cont : ℕ)
    (cat_dims : List ℕ) (critic_dropout : ℚ) (critic_steps : ℤ)
    (critic_lr critic_gp_factor generator_dropout generator_lr : ℚ)
    (generator_d_noise : Option ℕ) (max_epochs batch_size test_set_size : ℤ) :
    ∃ s : SpecSettings × SpecData,
      specificationsInit d_context d_cont cat_dims critic_dropout critic_steps
          critic_lr critic_gp_factor generator_dropout generator_lr
          generator_d_noise max_epochs batch_size test_set_size = .ok s ∧
      s.1.critic_lr = critic_lr ∧
      s.1.generator_lr = generator_lr ∧
      s.1.generator_dropout = generator_dropout ∧
      s.1.batch_size = batch_size ∧
      s.1.generator_d_noise = generator_d_noise.getD (d_cont + cat_dims.sum) ∧
      s.2.d_x = d_cont + cat_dims.sum ∧
      s.2.d_context = d_context :=
  ⟨_, rfl, rfl, rfl, rfl, rfl, rfl, rfl, rfl⟩

/-! ### Checkpoint resume (wgan.py, `train`, lines 666-676)

When `load_checkpoint` is configured, `train` loads the four state dicts into
the generator, critic and the two optimizers, sets
`start_epoch, step = cp["epoch"], cp["step"]`, and then enters
`for epoch in range(start_epoch, s["max_epochs"])` — whose first iterate is
`start_epoch` itself. -/

/-- The checkpoint aggregate saved by `train` (lines 727-731); `α` is the
type of the opaque state dicts. -/
structure Checkpoint (α : Type) where
  epoch : ℕ
  step : ℕ
  generator_state_dict : α
  critic_state_dict : α
  opt_generator_state_dict : α
  opt_critic_state_dict : α
deriving DecidableEq, Repr

/-- The training state right after the load-checkpoint block
(lines 667-673): the four restored state dicts and the restored counters. -/
structure ResumeState (α : Type) where
  start_epoch : ℕ
  step : ℕ
  generator : α
  critic : α
  opt_generator : α
  opt_critic : α
deriving DecidableEq, Repr

/-- The load-checkpoint block of `train` (lines 667-673). -/
def loadCheckpoint {α : Type} (cp : Checkpoint α) : ResumeState α :=
  { start_epoch := cp.epoch
    step := cp.step
    generator := cp.generator_state_dict
    critic := cp.critic_state_dict
    opt_generator := cp.opt_generator_state_dict
    opt_critic := cp.opt_critic_state_dict }

/-- Python's `range(a, b)` as a list. -/
def pythonRange (a b : ℕ) : List ℕ :=
  List.range' a (b - a)

/-- The epoch indices executed by the loop
`for epoch in range(start_epoch, s["max_epochs"])` (line 676). -/
def epochsRun {α : Type} (rs : ResumeState α) (max_epochs : ℕ) : List ℕ :=
  pythonRange rs.start_epoch max_epochs

/-- Counterexample for C9: resuming from a checkpoint stored at epoch 3 with
`max_epochs = 10`, the first epoch executed is 3 — not `3 + 1` as the claim
states. -/
theorem claim_C9_counterexample :
    (epochsRun (loadCheckpoint (⟨3, 7, 0, 0, 0, 0⟩ : Checkpoint ℕ)) 10).head? =
      some 3 ∧
    (epochsRun (loadCheckpoint (⟨3, 7, 0, 0, 0, 0⟩ : Checkpoint ℕ)) 10).head? ≠
      some (3 + 1) := by
  decide

/-- Claim C9 (amended): with a load path configured, `train` restores the
generator, critic and both optimizer state dicts plus the epoch and step
counters from the checkpoint before entering the epoch loop, and the first
epoch executed after resuming is `start_epoch` itself (the stored epoch
index is re-run). -/
theorem claim_C9_amended_resume {α : Type} (cp : Checkpoint α)
    (max_epochs : ℕ) (h : cp.epoch < max_epochs) :
    (loadCheckpoint cp).start_epoch = cp.epoch ∧
    (loadCheckpoint cp).step = cp.step ∧
    (loadCheckpoint cp).generator = cp.generator_state_dict ∧
    (loadCheckpoint cp).critic = cp.critic_state_dict ∧
    (loadCheckpoint cp).opt_generator = cp.opt_generator_state_dict ∧
    (loadCheckpoint cp).opt_critic = cp.opt_critic_state_dict ∧
    (epochsRun (loadCheckpoint cp) max_epochs).head? = some cp.epoch := by
  refine ⟨rfl, rfl, rfl, rfl, rfl, rfl, ?_⟩
  have hpos : max_epochs - cp.epoch = (max_epochs - cp.epoch - 1) + 1 := by
    omega
  rw [epochsRun, pythonRange, loadCheckpoint]
  rw [hpos, List.range'_succ]
  rfl

/-- Witness for C9 (amended) at the concrete checkpoint of the
counterexample. -/
theorem claim_C9_amended_resume_witness :
    (loadCheckpoint (⟨3, 7, 11, 12, 13, 14⟩ : Checkpoint ℕ)).start_epoch = 3 ∧
    (loadCheckpoint (⟨3, 7, 11, 12, 13, 14⟩ : Checkpoint ℕ)).step = 7 ∧
    (loadCheckpoint (⟨3, 7, 11, 12, 13, 14⟩ : Checkpoint ℕ)).generator = 11 ∧
    (loadCheckpoint (⟨3, 7, 11, 12, 13, 14⟩ : Checkpoint ℕ)).critic = 12 ∧
    (loadCheckpoint (⟨3, 7, 11, 12, 13, 14⟩ : Checkpoint ℕ)).opt_generator = 13 ∧
    (loadCheckpoint (⟨3, 7, 11, 12, 13, 14⟩ : Checkpoint ℕ)).opt_critic = 14 ∧
    (epochsRun (loadCheckpoint (⟨3, 7, 11, 12, 13, 14⟩ : Checkpoint ℕ)) 10).head? =
      some 3 :=
  claim_C9_amended_resume (⟨3, 7, 11, 12, 13, 14⟩ : Checkpoint ℕ) 10 (by decide)

/-! ### Monotonicity-penalty factory (wgan.py, `monotonicity_penalty_kernreg`, lines 870-898)

With `data_wrapper` supplied, the factory normalizes `x_min` and `x_max`
through the wrapper's statistics (`(x - x_mean)/(x_std + 1e-3)`, line 887) —
which raises a `TypeError` if either endpoint is `None`.  With
`data_wrapper=None`, the fallback branches `if x_min is None: x_min = x.min()`
and `if x_max is None: x_max = x.max()` (lines 888-889) reference a name `x`
that is bound nowhere in the enclosing scope (the generator expression on
line 887 and the inner `penalty` have their own scopes), so they raise an
unbound-name `NameError`.  Only when both endpoints survive does the factory
return the `penalty` closure; we model the returned closure by the grid
endpoints it captures. -/

/-- The per-variable statistics taken from a `DataWrapper`
(lines 885-886). -/
structure DataWrapperStats where
  mean : ℚ
  std : ℚ
deriving DecidableEq, Repr

/-- The Python errors the factory can raise before returning the closure. -/
inductive PyError where
  | nameError
  | typeError
deriving DecidableEq, Repr

/-- `monotonicity_penalty_kernreg`'s endpoint resolution (lines 884-889):
either the pair of grid endpoints captured by the returned `penalty`
closure, or the error raised while resolving them. -/
def monotonicity_penalty_kernreg_endpoints (data_wrapper : Option DataWrapperStats)
    (x_min x_max : Option ℚ) : Except PyError (ℚ × ℚ) :=
  match data_wrapper with
  | some dw =>
      match x_min, x_max with
      | some a, some b =>
          .ok ((a - dw.mean) / (dw.std + 1/1000), (b - dw.mean) / (dw.std + 1/1000))
      | _, _ => .error .typeError
  | none =>
      match x_min, x_max with
      | some a, some b => .ok (a, b)
      | none, _ => .error .nameError
      | some _, none => .error .nameError

/-- Claim C10: with `data_wrapper=None` and either endpoint `None`, the
factory fails with an unbound-name error (the data-range default is
unreachable), and it returns a penalty closure only when both grid endpoints
are supplied or a data wrapper provides statistics. -/
theorem claim_C10_kernreg_unbound_name (x_min x_max : Option ℚ) :
    ((x_min = none ∨ x_max = none) →
      monotonicity_penalty_kernreg_endpoints none x_min x_max =
        .error PyError.nameError) ∧
    (∀ (data_wrapper : Option DataWrapperStats) (r : ℚ × ℚ),
      monotonicity_penalty_kernreg_endpoints data_wrapper x_min x_max = .ok r →
      (x_min ≠ none ∧ x_max ≠ none) ∨ data_wrapper ≠ none) := by
  constructor
  · intro hnone
    cases x_min with
    | none => rfl
    | some a =>
        cases x_max with
        | none => rfl
        | some b => rcases hnone with h | h <;> simp at h
  · intro data_wrapper r hok
    cases data_wrapper with
    | some dw => exact Or.inr (by simp)
    | none =>
        cases x_min with
        | none => simp [monotonicity_penalty_kernreg_endpoints] at hok
        | some a =>
            cases x_max with
            | none => simp [monotonicity_penalty_kernreg_endpoints] at hok
            | some b => exact Or.inl (by simp)

/-- Witness for C10: with no data wrapper and both endpoints missing, the
factory raises the unbound-name error; with no data wrapper and both
endpoints supplied, the factory returns a closure (so the necessary
condition of the second conjunct is met). -/
theorem claim_C10_kernreg_unbound_name_witness :
    monotonicity_penalty_kernreg_endpoints none none none =
      .error PyError.nameError ∧
    (((some (0:ℚ) : Option ℚ) ≠ none ∧ (some (1:ℚ) : Option ℚ) ≠ none) ∨
      (none : Option DataWrapperStats) ≠ none) :=
  ⟨(claim_C10_kernreg_unbound_name none none).1 (Or.inl rfl),
   (claim_C10_kernreg_unbound_name (some 0) (some 1)).2 none (0, 1) rfl⟩
